import Mathlib

/-!
Shallow embedding of the product-catalog backend (`src/main.py`).

Python dictionaries for product records are modelled as a structure whose
fields are all optional (a missing dictionary key is `none`); `dict.get`
with a default becomes `Option.getD`.  Python float literals in the sample
data are modelled as exact rationals (no arithmetic is ever performed on
them, so only injectivity of the representation matters).  The document
store read `get_documents("product")` is modelled as an `Except` value: a
raised exception is `Except.error ()`, a successful fetch is `Except.ok docs`.
The module-level database handle `db` (which may be `None`) is modelled as
an `Option` over the state of the `product` collection, a list of records.
Python `str.lower` is modelled by ASCII lowercasing, which agrees with it on
all strings appearing in the repository.
-/

namespace Catalog

/-- A product record: one Python dict.  `rawId` models the store-assigned
`_id` key (already in its string form, since `str` is all the code applies
to it); `id` models the `id` key added by `list_products`.  All sample
records leave `rawId` and `id` absent. -/
structure Rec where
  rawId : Option String := none
  id : Option String := none
  title : Option String := none
  description : Option String := none
  price : Option ℚ := none
  category : Option String := none
  in_stock : Option Bool := none
  image : Option String := none
  rating : Option ℚ := none
deriving DecidableEq, Repr

/-- The JSON object `{"items": ..., "count": ...}` returned by `list_products`. -/
structure ListResult where
  items : List Rec
  count : Nat
deriving DecidableEq, Repr

/-- ASCII lowercasing of one character, as Python `str.lower` does on ASCII. -/
def lowerChar (c : Char) : Char :=
  if c.toNat ≥ 65 ∧ c.toNat ≤ 90 then Char.ofNat (c.toNat + 32) else c

/-- Python `s.lower()` (ASCII fragment). -/
def lowerStr (s : String) : String :=
  ⟨s.data.map lowerChar⟩

/-- `leadEq n h` : `n` is an initial segment of `h`. -/
def leadEq : List Char → List Char → Bool
  | [], _ => true
  | _ :: _, [] => false
  | a :: as, b :: bs => a == b && leadEq as bs

/-- `subIn n h` : the Python substring test `n in h` on character lists. -/
def subIn (n : List Char) : List Char → Bool
  | [] => leadEq n []
  | b :: bs => leadEq n (b :: bs) || subIn n bs

/-- Python `needle in hay` on strings. -/
def strIn (needle hay : String) : Bool :=
  subIn needle.data hay.data

/-- Python truthiness of an `Optional[str]` argument: `None` and `""` are
falsy, every other string is truthy (`if category:` / `if q:` in the source). -/
def truthy : Option String → Bool
  | none => false
  | some s => !s.isEmpty

/-- The category filter predicate of `list_products` (src/main.py line 108):
`p.get("category", "").lower() == category.lower()`. -/
def catMatch (category : String) (p : Rec) : Bool :=
  lowerStr (p.category.getD "") == lowerStr category

/-- The query filter predicate of `list_products` (src/main.py line 111):
`ql in p.get("title", "").lower() or ql in (p.get("description") or "").lower()`
with `ql = q.lower()`. -/
def qMatch (q : String) (p : Rec) : Bool :=
  let ql := lowerStr q
  strIn ql (lowerStr (p.title.getD "")) || strIn ql (lowerStr (p.description.getD ""))

/-- The two optional filters of `list_products`, applied in source order
(category first, then query), each guarded by Python truthiness. -/
def applyFilters (category q : Option String) (items : List Rec) : List Rec :=
  let afterCat := if truthy category then items.filter (catMatch (category.getD "")) else items
  if truthy q then afterCat.filter (qMatch (q.getD "")) else afterCat

/-- Python `str(d.get("_id"))`: `str(None)` is `"None"`, any present store
identifier is already carried in string form. -/
def strOfId : Option String → String
  | none => "None"
  | some s => s

/-- The per-document annotation `d["id"] = str(d.get("_id"))` done on the
store-success path of `list_products` (src/main.py line 102). -/
def addId (d : Rec) : Rec :=
  { d with id := some (strOfId d.rawId) }

/-- First entry of `SAMPLE_PRODUCTS` (src/main.py lines 33-41). -/
def sampleHeadphones : Rec :=
  { title := some "Wireless Noise Cancelling Headphones"
    description := some "Over-ear Bluetooth headphones with 30h battery and ANC."
    price := some 129.99
    category := some "Electronics"
    in_stock := some true
    image := some "https://images.unsplash.com/photo-1518443885661-7a08f0f64f32?q=80&w=1200&auto=format&fit=crop"
    rating := some 4.6 }

/-- Second entry of `SAMPLE_PRODUCTS` (src/main.py lines 42-50). -/
def sampleBottle : Rec :=
  { title := some "Stainless Steel Water Bottle"
    description := some "Insulated 32oz bottle keeps drinks cold for 24h."
    price := some 24.95
    category := some "Home"
    in_stock := some true
    image := some "https://images.unsplash.com/photo-1517705008128-361805f42e86?q=80&w=1200&auto=format&fit=crop"
    rating := some 4.4 }

/-- Third entry of `SAMPLE_PRODUCTS` (src/main.py lines 51-59). -/
def sampleChair : Rec :=
  { title := some "Ergonomic Office Chair"
    description := some "Adjustable lumbar support, breathable mesh back."
    price := some 199.0
    category := some "Furniture"
    in_stock := some true
    image := some "https://images.unsplash.com/photo-1582582429416-cfecfc0a0bdf?q=80&w=1200&auto=format&fit=crop"
    rating := some 4.3 }

/-- Fourth entry of `SAMPLE_PRODUCTS` (src/main.py lines 60-68). -/
def sampleTV : Rec :=
  { title := some "4K UHD Smart TV 55\""
    description := some "Ultra HD, HDR, built-in streaming apps."
    price := some 429.0
    category := some "Electronics"
    in_stock := some true
    image := some "https://images.unsplash.com/photo-1587300003388-59208cc962cb?q=80&w=1200&auto=format&fit=crop"
    rating := some 4.5 }

/-- Fifth entry of `SAMPLE_PRODUCTS` (src/main.py lines 69-77). -/
def sampleCookware : Rec :=
  { title := some "Non-Stick Cookware Set (10 pcs)"
    description := some "Durable, PFOA-free non-stick with glass lids."
    price := some 89.99
    category := some "Kitchen"
    in_stock := some true
    image := some "https://images.unsplash.com/photo-1544025162-d76694265947?q=80&w=1200&auto=format&fit=crop"
    rating := some 4.2 }

/-- Sixth entry of `SAMPLE_PRODUCTS` (src/main.py lines 78-86). -/
def sampleShoes : Rec :=
  { title := some "Running Shoes"
    description := some "Lightweight, breathable, everyday trainers."
    price := some 59.99
    category := some "Fashion"
    in_stock := some true
    image := some "https://images.unsplash.com/photo-1542291026-7eec264c27ff?q=80&w=1200&auto=format&fit=crop"
    rating := some 4.1 }

/-- The Sample Catalog `SAMPLE_PRODUCTS` (src/main.py lines 32-87), in
declaration order. -/
def SAMPLE_PRODUCTS : List Rec :=
  [sampleHeadphones, sampleBottle, sampleChair, sampleTV, sampleCookware, sampleShoes]

/-- `GET /api/products` (src/main.py lines 95-113).  The store read outcome is
passed in: `Except.error ()` models `get_documents` raising any exception, in
which case `items = SAMPLE_PRODUCTS.copy()`; `Except.ok docs` models a
successful fetch, each document getting its `id` annotation.  The optional
filters are then applied and the `{items, count}` object returned.  The
function is total: no store outcome escapes as an error. -/
def list_products (store : Except Unit (List Rec)) (category q : Option String) :
    ListResult :=
  let items :=
    match store with
    | Except.ok docs => docs.map addId
    | Except.error _ => SAMPLE_PRODUCTS
  let filtered := applyFilters category q items
  ⟨filtered, filtered.length⟩

/-- Code-point comparison of characters, as Python string comparison uses. -/
def charLt (a b : Char) : Bool :=
  Nat.blt a.toNat b.toNat

/-- Lexicographic comparison of character lists. -/
def listLt : List Char → List Char → Bool
  | [], [] => false
  | [], _ :: _ => true
  | _ :: _, [] => false
  | a :: as, b :: bs => charLt a b || (a == b && listLt as bs)

/-- Python `a < b` on strings: lexicographic by code point. -/
def strLt (a b : String) : Bool :=
  listLt a.data b.data

/-- Ordered duplicate-free insertion of a string into a list; folding it
over a list yields Python `sorted(set(...))` with lexicographic order. -/
def insertUniq (x : String) : List String → List String
  | [] => [x]
  | y :: ys =>
    if x = y then y :: ys
    else if strLt x y then x :: y :: ys
    else y :: insertUniq x ys

/-- Python `sorted({...})`: the distinct elements of `l` in ascending
lexicographic order. -/
def sortedSet (l : List String) : List String :=
  l.foldr insertUniq []

/-- The fallback of `list_categories` (src/main.py line 125):
`sorted({p["category"] for p in SAMPLE_PRODUCTS})`.  Every sample record
carries a `category` key, so the Python subscript never raises; the
`Option.getD ""` here is never exercised on the absent branch. -/
def sampleCategories : List String :=
  sortedSet (SAMPLE_PRODUCTS.map (fun p => p.category.getD ""))

/-- `GET /api/categories` (src/main.py lines 116-125).  On a successful read
the distinct `category` values (defaulting to `"Misc"` when absent) are
sorted; an empty result raises `Exception("empty")`, which the same
`except` clause that catches store failures turns into the sample fallback. -/
def list_categories (store : Except Unit (List Rec)) : List String :=
  match store with
  | Except.ok docs =>
    if (sortedSet (docs.map (fun d => d.category.getD "Misc"))).isEmpty then sampleCategories
    else sortedSet (docs.map (fun d => d.category.getD "Misc"))
  | Except.error _ => sampleCategories

/-- The insertion loop of `seed_products` (src/main.py lines 133-139) over an
arbitrary catalog: `existingTitles` is the title snapshot taken once before
the loop and never updated; each catalog record whose title is not in the
snapshot is appended to the collection and counted. -/
def seedLoop (existingTitles : List (Option String)) (catalog : List Rec)
    (coll : List Rec) : List Rec × Nat :=
  catalog.foldl
    (fun acc p =>
      if existingTitles.contains p.title then acc else (acc.1 ++ [p], acc.2 + 1))
    (coll, 0)

/-- `POST /api/seed` (src/main.py lines 128-140).  `db` is the module-level
database handle: `none` models an unconfigured store, in which case
`HTTPException(status_code=503)` is raised before any store access — modelled
as `Except.error 503`, carrying no collection state, hence zero writes.
Otherwise the existing titles are snapshotted once and the Sample Catalog
inserted through `seedLoop`; the result carries the new collection state and
the `inserted` counter. -/
def seed_products (db : Option (List Rec)) : Except Nat (List Rec × Nat) :=
  match db with
  | none => Except.error 503
  | some coll => Except.ok (seedLoop (coll.map (fun e => e.title)) SAMPLE_PRODUCTS coll)

/-! ### Helper lemmas -/

lemma charLt_iff {a b : Char} : charLt a b = true ↔ a < b := by
  rw [charLt, Nat.blt_eq, Char.lt_def]
  exact Iff.rfl

lemma listLt_iff_lex : ∀ as bs : List Char, listLt as bs = true ↔ List.Lex (· < ·) as bs
  | [], [] => by
    constructor
    · intro h; simp [listLt] at h
    · intro h; cases h
  | [], _ :: _ => by
    constructor
    · intro _; exact List.Lex.nil
    · intro _; rfl
  | _ :: _, [] => by
    constructor
    · intro h; simp [listLt] at h
    · intro h; cases h
  | a :: as, b :: bs => by
    rw [listLt, Bool.or_eq_true, Bool.and_eq_true, charLt_iff, beq_iff_eq,
      listLt_iff_lex as bs]
    constructor
    · rintro (h | ⟨rfl, h⟩)
      · exact List.Lex.rel h
      · exact List.Lex.cons h
    · intro h
      cases h with
      | cons h => exact Or.inr ⟨rfl, h⟩
      | rel h => exact Or.inl h

lemma strLt_iff {a b : String} : strLt a b = true ↔ a < b := by
  rw [String.lt_iff_toList_lt]
  exact listLt_iff_lex a.data b.data

lemma strLt_of_not {x y : String} (hne : x ≠ y) (h : strLt x y = false) :
    strLt y x = true := by
  rw [strLt_iff]
  rcases lt_trichotomy x y with hlt | heq | hgt
  · rw [strLt_iff.mpr hlt] at h
    exact absurd h (by simp)
  · exact absurd heq hne
  · exact hgt

lemma mem_insertUniq {x a : String} :
    ∀ {l : List String}, a ∈ insertUniq x l ↔ a = x ∨ a ∈ l := by
  intro l
  induction l with
  | nil => simp [insertUniq]
  | cons y ys ih =>
    rw [insertUniq]
    by_cases hxy : x = y
    · rw [if_pos hxy]
      subst hxy
      constructor
      · exact fun h => Or.inr h
      · rintro (rfl | h)
        · exact List.mem_cons_self _ _
        · exact h
    · rw [if_neg hxy]
      by_cases hlt : strLt x y = true
      · rw [if_pos hlt]
        simp [List.mem_cons, or_assoc]
      · rw [if_neg hlt]
        simp only [List.mem_cons, ih]
        constructor
        · rintro (rfl | h | h)
          · exact Or.inr (Or.inl rfl)
          · exact Or.inl h
          · exact Or.inr (Or.inr h)
        · rintro (h | rfl | h)
          · exact Or.inr (Or.inl h)
          · exact Or.inl rfl
          · exact Or.inr (Or.inr h)

lemma sorted_insertUniq {x : String} :
    ∀ {l : List String}, l.Pairwise (· < ·) → (insertUniq x l).Pairwise (· < ·) := by
  intro l
  induction l with
  | nil => intro _; simp [insertUniq]
  | cons y ys ih =>
    intro h
    rcases List.pairwise_cons.mp h with ⟨hy, hys⟩
    rw [insertUniq]
    by_cases hxy : x = y
    · rw [if_pos hxy]; exact h
    · rw [if_neg hxy]
      by_cases hlt : strLt x y = true
      · rw [if_pos hlt]
        refine List.pairwise_cons.mpr ⟨?_, h⟩
        intro a ha
        rcases List.mem_cons.mp ha with rfl | ha
        · exact strLt_iff.mp hlt
        · exact lt_trans (strLt_iff.mp hlt) (hy a ha)
      · rw [if_neg hlt]
        refine List.pairwise_cons.mpr ⟨?_, ih hys⟩
        intro a ha
        rcases mem_insertUniq.mp ha with rfl | ha
        · exact strLt_iff.mp (strLt_of_not hxy (Bool.eq_false_iff.mpr hlt))
        · exact hy a ha

lemma sorted_sortedSet (l : List String) : (sortedSet l).Pairwise (· < ·) := by
  induction l with
  | nil => simp [sortedSet]
  | cons a l ih => exact sorted_insertUniq ih

lemma lowerStr_ne_empty {s : String} (h : s ≠ "") : lowerStr s ≠ "" := by
  obtain ⟨l⟩ := s
  cases l with
  | nil => exact absurd rfl h
  | cons c cs =>
    intro hco
    simpa [lowerStr] using congrArg String.data hco

lemma truthy_some {s : String} (h : s ≠ "") : truthy (some s) = true := by
  have hb : s.isEmpty = false :=
    Bool.eq_false_iff.mpr (fun he => h ((String.isEmpty_iff s).mp he))
  show (!s.isEmpty) = true
  rw [hb]
  rfl

/-! ### Claim theorems -/

/-- Claim C1: for every category/query argument pair, a raising store read in
`list_products` makes the result be computed from the Sample Catalog (the
filters applied to `SAMPLE_PRODUCTS`), no error is propagated (the function
is total into `ListResult`), and the returned object is well-formed: its
`count` always equals the length of its `items`. -/
theorem list_products_fallback_and_total (c q : Option String)
    (st : Except Unit (List Rec)) :
    list_products (Except.error ()) c q =
      ⟨applyFilters c q SAMPLE_PRODUCTS, (applyFilters c q SAMPLE_PRODUCTS).length⟩
    ∧ (list_products st c q).count = (list_products st c q).items.length :=
  ⟨rfl, rfl⟩

/-- Claim C2: `list_products` with no category and no query, when the store
read raises, returns exactly the 6 Sample Catalog entries in declaration
order with `count = 6`. -/
theorem list_products_unfiltered_sample :
    list_products (Except.error ()) none none = ⟨SAMPLE_PRODUCTS, 6⟩
    ∧ SAMPLE_PRODUCTS =
      [sampleHeadphones, sampleBottle, sampleChair, sampleTV, sampleCookware, sampleShoes] :=
  ⟨rfl, rfl⟩

/-- Claim C3: seeding an initially empty store inserts all 6 Sample Catalog
records (`inserted = 6`) and leaves the collection holding exactly them; a
second run inserts 0.  The existing-title set is snapshotted once before the
loop and not updated during it: a record whose title is absent from the
snapshot but duplicated inside the catalog batch is inserted (and counted)
once per occurrence, as the duplicated-first-sample run shows. -/
theorem seed_twice_idempotent :
    seed_products (some []) = Except.ok (SAMPLE_PRODUCTS, 6)
    ∧ seed_products (some SAMPLE_PRODUCTS) = Except.ok (SAMPLE_PRODUCTS, 0)
    ∧ (seedLoop [] [sampleHeadphones, sampleHeadphones] []).2 = 2 :=
  ⟨rfl, rfl, rfl⟩

/-- Claim C4: `seed_products` with no database handle configured fails with
the HTTP 503 service-unavailable condition; the error carries no collection
state, so in this state-passing model no write is performed. -/
theorem seed_unconfigured_rejected :
    seed_products none = Except.error 503 :=
  rfl

/-- Claim C5: for every product list and non-empty category filter and
non-empty query, the two filters of `list_products` commute (category-then-
query equals query-then-category) and both are case-insensitive: replacing
the category or query argument by any string with the same lowercasing
leaves the result unchanged. -/
theorem filters_case_insensitive_commute (items : List Rec) (c q c2 q2 : String)
    (hc : c ≠ "") (hq : q ≠ "") (hc2 : lowerStr c2 = lowerStr c)
    (hq2 : lowerStr q2 = lowerStr q) :
    (items.filter (catMatch c)).filter (qMatch q) =
      (items.filter (qMatch q)).filter (catMatch c)
    ∧ applyFilters (some c) (some q) items = (items.filter (catMatch c)).filter (qMatch q)
    ∧ applyFilters (some c2) (some q2) items = applyFilters (some c) (some q) items := by
  have hc2ne : c2 ≠ "" := by
    intro h
    apply lowerStr_ne_empty hc
    rw [← hc2, h]
    rfl
  have hq2ne : q2 ≠ "" := by
    intro h
    apply lowerStr_ne_empty hq
    rw [← hq2, h]
    rfl
  refine ⟨List.filter_comm _ _ _, ?_, ?_⟩
  · simp [applyFilters, truthy_some hc, truthy_some hq]
  · simp [applyFilters, truthy_some hc, truthy_some hq, truthy_some hc2ne,
      truthy_some hq2ne, catMatch, qMatch, hc2, hq2]

/-- Witness for C5 at the Sample Catalog with filters `"Electronics"` /
`"tv"` and their case variants. -/
theorem filters_case_insensitive_commute_witness :
    (SAMPLE_PRODUCTS.filter (catMatch "Electronics")).filter (qMatch "tv") =
      (SAMPLE_PRODUCTS.filter (qMatch "tv")).filter (catMatch "Electronics")
    ∧ applyFilters (some "Electronics") (some "tv") SAMPLE_PRODUCTS =
      (SAMPLE_PRODUCTS.filter (catMatch "Electronics")).filter (qMatch "tv")
    ∧ applyFilters (some "ELECTRONICS") (some "TV") SAMPLE_PRODUCTS =
      applyFilters (some "Electronics") (some "tv") SAMPLE_PRODUCTS :=
  filters_case_insensitive_commute SAMPLE_PRODUCTS "Electronics" "tv" "ELECTRONICS" "TV"
    (by decide) (by decide) (by decide) (by decide)

/-- Claim C6: `list_categories` falls back to the distinct Sample Catalog
categories when the store read raises or yields zero records; its result is
always sorted in strictly ascending lexicographic order (hence duplicate
free), and the fallback is exactly the five sorted sample categories. -/
theorem list_categories_sorted_distinct (st : Except Unit (List Rec)) :
    (list_categories st).Pairwise (· < ·)
    ∧ (list_categories st).Nodup
    ∧ list_categories (Except.error ()) =
      ["Electronics", "Fashion", "Furniture", "Home", "Kitchen"]
    ∧ list_categories (Except.ok []) = list_categories (Except.error ()) := by
  have hsort : (list_categories st).Pairwise (· < ·) := by
    cases st with
    | error e => exact sorted_sortedSet _
    | ok docs =>
      simp only [list_categories]
      split
      · exact sorted_sortedSet _
      · exact sorted_sortedSet _
  exact ⟨hsort, hsort.imp (fun h => ne_of_lt h), rfl, rfl⟩

/-- Claim C7: in the product path an empty result is never replaced by the
fallback: a successful store read always yields exactly the filtered,
id-annotated documents, even when that is empty (zero records fetched, or
filters eliminating everything), in contrast with the category path where an
empty store result does trigger the fallback. -/
theorem empty_result_not_replaced (docs : List Rec) (c q : Option String) :
    list_products (Except.ok docs) c q =
      ⟨applyFilters c q (docs.map addId), (applyFilters c q (docs.map addId)).length⟩
    ∧ list_products (Except.ok []) none none = ⟨[], 0⟩
    ∧ list_products (Except.ok [sampleShoes]) (some "Electronics") none = ⟨[], 0⟩
    ∧ list_categories (Except.ok []) = sampleCategories
    ∧ sampleCategories ≠ [] :=
  ⟨rfl, rfl, rfl, rfl, by decide⟩

/-- Claim C8: `list_products` with category `"Electronics"` against the
Sample Catalog returns exactly the headphones and the TV with `count = 2`,
matching case-insensitively, and a record lacking a category never matches a
non-empty category filter. -/
theorem electronics_filter (p : Rec) (c : String) (hp : p.category = none)
    (hc : c ≠ "") :
    list_products (Except.error ()) (some "Electronics") none =
      ⟨[sampleHeadphones, sampleTV], 2⟩
    ∧ list_products (Except.error ()) (some "ELECTRONICS") none =
      list_products (Except.error ()) (some "Electronics") none
    ∧ catMatch c p = false := by
  refine ⟨rfl, rfl, ?_⟩
  rw [catMatch, hp]
  rw [beq_eq_false_iff_ne]
  intro h
  exact lowerStr_ne_empty hc h.symm

/-- Witness for C8 at the all-absent record and the filter `"Electronics"`. -/
theorem electronics_filter_witness :
    list_products (Except.error ()) (some "Electronics") none =
      ⟨[sampleHeadphones, sampleTV], 2⟩
    ∧ list_products (Except.error ()) (some "ELECTRONICS") none =
      list_products (Except.error ()) (some "Electronics") none
    ∧ catMatch "Electronics" {} = false :=
  electronics_filter {} "Electronics" rfl (by decide)

/-- Claim C9: an empty-string category or query argument is equivalent to an
omitted one — the guards test Python truthiness, not presence — so
`list_products(category="", q="")` returns the full unfiltered source
sequence. -/
theorem empty_string_filters_skipped (st : Except Unit (List Rec))
    (c q : Option String) (items : List Rec) :
    list_products st (some "") q = list_products st none q
    ∧ list_products st c (some "") = list_products st c none
    ∧ list_products st (some "") (some "") = list_products st none none
    ∧ applyFilters (some "") (some "") items = items :=
  ⟨rfl, rfl, rfl, rfl⟩

/-- Claim C10: `list_categories` never returns an empty sequence: the
store-success result is kept only when non-empty, and every other case falls
back to the non-empty sample category set. -/
theorem list_categories_never_empty (st : Except Unit (List Rec)) :
    list_categories st ≠ [] := by
  cases st with
  | error e => exact (by decide : sampleCategories ≠ [])
  | ok docs =>
    simp only [list_categories]
    split
    · exact (by decide : sampleCategories ≠ [])
    · next h =>
      intro hnil
      exact h (by rw [hnil]; rfl)

end Catalog
